import Mathlib

/-!
Verification development for the Investment Advisory System
(risk scoring and fund selection engine).

The development shallowly embeds the repository's Python modules:

* `src/modules/fund_filtering.py`        → namespace `FundFiltering` (exact
  rational arithmetic: every quantity there is a ratio of decimal literals);
* `src/config/settings.py`               → namespace `Settings`;
* `src/modules/risk_assessment.py`       → namespace `RiskAssessment`
  (real arithmetic, `math.log1p` becomes `Real.log (1 + ·)`);
* `src/modules/risk_assessment_complex.py` → namespace `RiskAssessmentComplex`.

Python `dict` access `d[k]` raises `KeyError` when `k` is absent; such
fallible lookups are modelled with `Except`.  Python's `round(x, n)`
(round-half-to-even) is modelled by `pyRound`.
-/

namespace InvestmentAdvisory

/-! ### Python rounding

`round(x, ndigits)` in Python rounds half to even (banker's rounding). -/

/-- Round half to even: nearest integer, ties going to the even one. -/
def roundHalfEven {α : Type} [LinearOrderedField α] [FloorRing α] (x : α) : ℤ :=
  if x - ⌊x⌋ < 1/2 then ⌊x⌋
  else if 1/2 < x - ⌊x⌋ then ⌊x⌋ + 1
  else if ⌊x⌋ % 2 = 0 then ⌊x⌋ else ⌊x⌋ + 1

/-- Python's `round(x, ndigits)` for `ndigits ≥ 0`. -/
def pyRound {α : Type} [LinearOrderedField α] [FloorRing α] (x : α) (ndigits : ℕ) : α :=
  ((roundHalfEven (x * 10 ^ ndigits) : ℤ) : α) / 10 ^ ndigits

/-! ### `src/modules/fund_filtering.py`

Everything in this module is exact decimal/rational arithmetic, so it is
embedded over `ℚ`.  A pandas `DataFrame` of funds becomes a `List FundRecord`;
`Series.quantile(q)` (linear interpolation, the pandas default) becomes
`quantile`; `nlargest` becomes a stable sort by descending score followed by
`take`.  The sort used for the quantile is irrelevant to its value (only the
sorted order of the data matters); a structural insertion sort stands in for
pandas' internal sort. -/

namespace FundFiltering

/-- One row of the fund universe: `fund_name`, `category`, `3yr_return`
(spelled `three_yr_return`), `expense_ratio`, `sharpe_ratio`, `alpha`,
`age_years`. -/
structure FundRecord where
  fund_name : String
  category : String
  three_yr_return : ℚ
  expense_ratio : ℚ
  sharpe_ratio : ℚ
  alpha : ℚ
  age_years : ℚ
deriving DecidableEq

/-- `get_expense_threshold(category)`: expense-ratio threshold per category,
`thresholds.get(category, 2.0)`. -/
def get_expense_threshold (category : String) : ℚ :=
  if category = "large_cap" then 2.0
  else if category = "mid_cap" then 2.25
  else if category = "small_cap" then 2.5
  else if category = "debt" then 1.5
  else if category = "hybrid" then 2.0
  else 2.0

/-- pandas `Series.quantile(q)` with the default linear interpolation:
sort the values, take position `h = q*(n-1)`, and interpolate linearly
between the neighbouring order statistics.  (pandas returns NaN on an empty
series; that case is never consumed below, and is mapped to 0.) -/
def quantile (xs : List ℚ) (q : ℚ) : ℚ :=
  let s := List.insertionSort (· ≤ ·) xs
  let n := s.length
  if n = 0 then 0
  else
    let h : ℚ := q * (n - 1)
    let i : ℕ := (⌊h⌋).toNat
    let lo := s.getD i 0
    let hi := s.getD (i + 1) lo
    lo + (h - ⌊h⌋) * (hi - lo)

/-- `apply_category_filters(category_funds, category)`: keep the funds with
`3yr_return` strictly above the subset's median, `expense_ratio` strictly
below the category threshold, `age_years` strictly above 3 and `sharpe_ratio`
strictly above the subset's 75th percentile. -/
def apply_category_filters (category_funds : List FundRecord) (category : String) :
    List FundRecord :=
  category_funds.filter (fun f =>
    decide (quantile (category_funds.map (fun g => g.three_yr_return)) 0.5 < f.three_yr_return) &&
    decide (f.expense_ratio < get_expense_threshold category) &&
    decide ((3 : ℚ) < f.age_years) &&
    decide (quantile (category_funds.map (fun g => g.sharpe_ratio)) 0.75 < f.sharpe_ratio))

/-- `normalize(series)` evaluated at one element `x` of the series: min-max
normalization, or `series * 0` (uniformly 0) when all values coincide.  The
fold is seeded with `x` to stay total; at every call site `x` is an element
of `xs`, so the seeded fold equals `series.min()` / `series.max()`. -/
def normalize (xs : List ℚ) (x : ℚ) : ℚ :=
  let min_val := xs.foldr min x
  let max_val := xs.foldr max x
  if max_val = min_val then 0
  else (x - min_val) / (max_val - min_val)

/-- A fund together with the composite `score` column added by
`get_top_funds`. -/
structure ScoredFund where
  fund : FundRecord
  score : ℚ
deriving DecidableEq

/-- `get_top_funds(filtered_funds)`: composite score
`0.4*norm(3yr_return) + 0.2*norm(-expense_ratio) + 0.2*norm(sharpe_ratio)
+ 0.2*norm(alpha)`, then `nlargest(5, 'score')` (stable descending order,
first five). -/
def get_top_funds (filtered_funds : List FundRecord) : List ScoredFund :=
  let rets := filtered_funds.map (fun f => f.three_yr_return)
  let negExpenses := filtered_funds.map (fun f => -f.expense_ratio)
  let sharpes := filtered_funds.map (fun f => f.sharpe_ratio)
  let alphas := filtered_funds.map (fun f => f.alpha)
  let scored := filtered_funds.map (fun f =>
    ScoredFund.mk f
      (0.4 * normalize rets f.three_yr_return +
       0.2 * normalize negExpenses (-f.expense_ratio) +
       0.2 * normalize sharpes f.sharpe_ratio +
       0.2 * normalize alphas f.alpha))
  (List.insertionSort (fun a b => b.score ≤ a.score) scored).take 5

/-- The `{"debt": d, "equity": e}` allocation dictionaries. -/
structure AllocationSplit where
  debt : ℚ
  equity : ℚ
deriving DecidableEq

/-- `get_risk_category_from_score(risk_score)` (the copy in
`fund_filtering.py`): five bands with `<=` tests in increasing order. -/
def get_risk_category_from_score (risk_score : ℚ) : String × AllocationSplit :=
  if risk_score ≤ 0.2 then ("Very Conservative", ⟨0.85, 0.15⟩)
  else if risk_score ≤ 0.4 then ("Conservative", ⟨0.70, 0.30⟩)
  else if risk_score ≤ 0.6 then ("Moderate", ⟨0.55, 0.45⟩)
  else if risk_score ≤ 0.8 then ("Growth", ⟨0.35, 0.65⟩)
  else ("Aggressive", ⟨0.20, 0.80⟩)

/-- `equity_split`: how the equity share is divided across sub-categories. -/
def equity_split : List (String × ℚ) :=
  [("large_cap", 0.5), ("mid_cap", 0.3), ("small_cap", 0.2)]

/-- `debt_split`: the debt share goes entirely to the `debt` category. -/
def debt_split : List (String × ℚ) :=
  [("debt", 1.0)]

/-- The value stored per sub-category in the `filtered_funds` dict. -/
structure SubAlloc where
  allocation_pct : ℚ
  funds : List ScoredFund
deriving DecidableEq

/-- Body of the equity/debt loops in `filter_funds` (steps 4 and 5): restrict
the universe to the category, skip (`continue`) when that restriction or the
filtered shortlist is empty, otherwise record `share * split_pct` and the top
funds. -/
def process_category (fund_universe : List FundRecord) (share : ℚ)
    (category : String) (split_pct : ℚ) : Option (String × SubAlloc) :=
  let category_funds := fund_universe.filter (fun f => f.category == category)
  if category_funds.isEmpty then none
  else
    let filtered := apply_category_filters category_funds category
    if filtered.isEmpty then none
    else some (category, ⟨share * split_pct, get_top_funds filtered⟩)

/-- Step 6 of `filter_funds`: the hybrid carve-out, only when both baseline
shares are meaningful (`> 0.2`), only when hybrid funds exist and survive the
filters, with allocation `min(0.15, equity*0.2, debt*0.2)` (Python's
three-argument `min` folds from the left). -/
def hybrid_entries (fund_universe : List FundRecord) (allocation : AllocationSplit) :
    List (String × SubAlloc) :=
  if 0.2 < allocation.equity ∧ 0.2 < allocation.debt then
    if (fund_universe.filter (fun f => f.category == "hybrid")).isEmpty then []
    else if (apply_category_filters (fund_universe.filter (fun f => f.category == "hybrid"))
        "hybrid").isEmpty then []
    else
      [("hybrid", SubAlloc.mk
          (min (min (0.15 : ℚ) (allocation.equity * 0.2)) (allocation.debt * 0.2))
          (get_top_funds (apply_category_filters
            (fund_universe.filter (fun f => f.category == "hybrid")) "hybrid")))]
  else []

/-- `filter_funds(fund_universe, risk_score)`: category + the ordered dict of
sub-category allocations (equity sub-categories of step 4, then debt of
step 5, then the optional hybrid carve-out of step 6). -/
def filter_funds (fund_universe : List FundRecord) (risk_score : ℚ) :
    String × List (String × SubAlloc) :=
  ((get_risk_category_from_score risk_score).1,
    (if 0 < (get_risk_category_from_score risk_score).2.equity then
      equity_split.filterMap (fun p =>
        process_category fund_universe (get_risk_category_from_score risk_score).2.equity p.1 p.2)
    else []) ++
    (if 0 < (get_risk_category_from_score risk_score).2.debt then
      debt_split.filterMap (fun p =>
        process_category fund_universe (get_risk_category_from_score risk_score).2.debt p.1 p.2)
    else []) ++
    hybrid_entries fund_universe (get_risk_category_from_score risk_score).2)

/-- One entry of `portfolio['recommendations']`. -/
structure CategoryRec where
  allocation_percentage : ℚ
  fund_count : ℕ
  top_funds : List ScoredFund
deriving DecidableEq

/-- The output of `create_portfolio_recommendations`. -/
structure Portfolio where
  risk_category : String
  risk_score : ℚ
  total_categories : ℕ
  recommendations : List (String × CategoryRec)
  total_allocation : ℚ
deriving DecidableEq

/-- `create_portfolio_recommendations(fund_universe, risk_score)`: wrap
`filter_funds`, expose each allocation as `round(pct*100, 1)` and the sum of
the raw allocations as `round(total*100, 1)`. -/
def create_portfolio_recommendations (fund_universe : List FundRecord) (risk_score : ℚ) :
    Portfolio :=
  let fr := filter_funds fund_universe risk_score
  let recommendations := fr.2.map (fun e =>
    (e.1, CategoryRec.mk (pyRound (e.2.allocation_pct * 100) 1) e.2.funds.length e.2.funds))
  let total_allocation := (fr.2.map (fun e => e.2.allocation_pct)).sum
  ⟨fr.1, risk_score, fr.2.length, recommendations, pyRound (total_allocation * 100) 1⟩

/-- The allocation percentage that `filter_funds` assigns to a named
sub-category, as a function of the baseline split alone (used to state that
surviving sub-categories keep their nominal share: dropped categories are
never redistributed). -/
def nominal_alloc (a : AllocationSplit) (category : String) : ℚ :=
  if category = "large_cap" then a.equity * 0.5
  else if category = "mid_cap" then a.equity * 0.3
  else if category = "small_cap" then a.equity * 0.2
  else if category = "debt" then a.debt * 1.0
  else min (min (0.15 : ℚ) (a.equity * 0.2)) (a.debt * 0.2)

/-! #### A concrete sample universe

Two funds per category with identical numbers: `Sample A` (3yr return 10,
sharpe 1) fails the median/percentile filters, `Sample B` (3yr return 20,
sharpe 2) survives them; both have expense ratio 1 and age 10. -/

/-- Sample fund that fails the filters. -/
def sampleFundA (c : String) : FundRecord := ⟨"Sample A", c, 10, 1, 1, 1, 10⟩

/-- Sample fund that survives the filters. -/
def sampleFundB (c : String) : FundRecord := ⟨"Sample B", c, 20, 1, 2, 2, 10⟩

/-- A fund universe with both sample funds in every category. -/
def sampleUniverse : List FundRecord :=
  [sampleFundA "large_cap", sampleFundB "large_cap",
   sampleFundA "mid_cap", sampleFundB "mid_cap",
   sampleFundA "small_cap", sampleFundB "small_cap",
   sampleFundA "debt", sampleFundB "debt",
   sampleFundA "hybrid", sampleFundB "hybrid"]

/-- The sample universe with every `small_cap` record removed. -/
def sampleUniverseNoSmall : List FundRecord :=
  [sampleFundA "large_cap", sampleFundB "large_cap",
   sampleFundA "mid_cap", sampleFundB "mid_cap",
   sampleFundA "debt", sampleFundB "debt",
   sampleFundA "hybrid", sampleFundB "hybrid"]

end FundFiltering

/-! ### Shared helpers for the risk-assessment modules

The two risk modules use `math.log1p`, clamping with `min(max(x,0),1)` and
Python `dict` lookups.  Real-number definitions live in a `noncomputable`
section since `Real.log` and real-number comparisons are noncomputable. -/

/-- Python `d[key]` on a string-keyed dict: `KeyError` when absent. -/
def dictGet {α : Type} (d : List (String × α)) (key : String) : Except String α :=
  match d.lookup key with
  | some v => Except.ok v
  | none => Except.error ("KeyError: " ++ key)

noncomputable section

/-- `math.log1p(x) = log(1 + x)`. -/
def log1p (x : ℝ) : ℝ := Real.log (1 + x)

/-- `min(max(x, 0), 1)`, the clamp applied to every factor and score. -/
def clamp01 (x : ℝ) : ℝ := min (max x 0) 1

/-! ### `src/config/settings.py` -/

namespace Settings

/-- `RiskAssessmentConfig.WEIGHTS` (dict in insertion order). -/
def WEIGHTS : List (String × ℝ) :=
  [("age_factor", 0.25), ("income_factor", 0.20), ("timeline_factor", 0.20),
   ("surplus_factor", 0.15), ("savings_factor", 0.10), ("risk_tolerance_factor", 0.10)]

/-- `RiskAssessmentConfig.RISK_CATEGORIES`: `(min, max) → category`, in
insertion order. -/
def RISK_CATEGORIES : List ((ℝ × ℝ) × String) :=
  [((0.0, 0.2), "Very Conservative"), ((0.2, 0.4), "Conservative"),
   ((0.4, 0.6), "Moderate"), ((0.6, 0.8), "Growth"), ((0.8, 1.0), "Aggressive")]

/-- `RiskAssessmentConfig.INCOME_CAP`. -/
def INCOME_CAP : ℝ := 100000

/-- One entry of `AllocationConfig.ALLOCATIONS`: integer percentages. -/
structure Allocation where
  debt : ℕ
  equity : ℕ
deriving DecidableEq

/-- `AllocationConfig.ALLOCATIONS` as a dict: `none` models a `KeyError`.
Every category produced by `RISK_CATEGORIES` is a key. -/
def ALLOCATIONS (category : String) : Option Allocation :=
  if category = "Very Conservative" then some ⟨85, 15⟩
  else if category = "Conservative" then some ⟨70, 30⟩
  else if category = "Moderate" then some ⟨55, 45⟩
  else if category = "Growth" then some ⟨35, 65⟩
  else if category = "Aggressive" then some ⟨20, 80⟩
  else none

end Settings

/-! ### `src/modules/risk_assessment.py` (the simple module)

Python raises `TypeError` when a required numeric field is `None`; the typed
embedding models numerically valid profile fields, plus the genuinely partial
operation of the module: the `w["age"]`, ... dict lookups, which raise
`KeyError` on a custom weights dict that misses a key.  That error is not
caught anywhere in this module, so `calculate_risk_score` and
`analyze_user_risk_profile` are `Except`-valued. -/

namespace RiskAssessment

/-- `default_weights` of `calculate_risk_score`. -/
def default_weights : List (String × ℝ) :=
  [("age", 0.25), ("income", 0.20), ("timeline", 0.20),
   ("surplus", 0.15), ("savings", 0.10), ("tolerance", 0.10)]

/-- Step function for the age factor (`--- 1. Age Factor ---`). -/
def age_factor (age : ℝ) : ℝ :=
  if age ≤ 25 then 1.0
  else if age ≤ 35 then 0.8
  else if age ≤ 45 then 0.6
  else if age ≤ 55 then 0.4
  else 0.2

/-- `--- 2. Income Factor ---`: cap at 100000, normalize, clamp. -/
def income_factor (income : ℝ) : ℝ :=
  clamp01 (min income 100000 / 100000)

/-- `--- 3. Surplus Factor ---`: `log1p(max(surplus,0)) /
log1p(income/2 if income > 0 else 1)`, clamped. -/
def surplus_factor (income monthly_surplus : ℝ) : ℝ :=
  clamp01 (log1p (max monthly_surplus 0) / log1p (if 0 < income then income / 2 else 1))

/-- `--- 4. Savings Factor ---`: savings in months of income
(`income/12 if income > 0 else 1` as the divisor), log-scaled, capped at 60
months. -/
def savings_factor (income current_savings : ℝ) : ℝ :=
  clamp01 (log1p (current_savings / (if 0 < income then income / 12 else 1)) / log1p 60)

/-- `--- 5. Timeline Factor ---` from the goal horizons (dict keys), in
months; mean of `months/12`, log-scaled, capped at 30 years; `0.5` when there
are no goals. -/
def timeline_factor (goals : List ℝ) : ℝ :=
  if ¬goals.isEmpty then
    clamp01 (log1p ((goals.map (fun months => months / 12)).sum / goals.length) / log1p 30)
  else 0.5

/-- `--- 6. Risk Tolerance ---`: 1 ↦ 0, 5 ↦ 1. -/
def tolerance_factor (risk_tolerance : ℝ) : ℝ :=
  (risk_tolerance - 1) / 4

/-- The six weights the module reads out of its weights dict. -/
structure SimpleWeights where
  age : ℝ
  income : ℝ
  timeline : ℝ
  surplus : ℝ
  savings : ℝ
  tolerance : ℝ

/-- The `w["age"]`, `w["income"]`, ... accesses of the weighted-score
expression, in source order; any missing key raises `KeyError`. -/
def lookup_weights (w : List (String × ℝ)) : Except String SimpleWeights := do
  let wage ← dictGet w "age"
  let wincome ← dictGet w "income"
  let wtimeline ← dictGet w "timeline"
  let wsurplus ← dictGet w "surplus"
  let wsavings ← dictGet w "savings"
  let wtolerance ← dictGet w "tolerance"
  pure ⟨wage, wincome, wtimeline, wsurplus, wsavings, wtolerance⟩

/-- The weighted risk score: `Σ w_i * factor_i`, clamped to `[0, 1]` by
`min(max(risk_score, 0), 1)`. -/
def risk_score_core (w : SimpleWeights) (age income current_savings monthly_surplus : ℝ)
    (goals : List ℝ) (risk_tolerance : ℝ) : ℝ :=
  clamp01 (w.age * age_factor age +
    w.income * income_factor income +
    w.timeline * timeline_factor goals +
    w.surplus * surplus_factor income monthly_surplus +
    w.savings * savings_factor income current_savings +
    w.tolerance * tolerance_factor risk_tolerance)

/-- `calculate_risk_score(...)`: `w = weights if weights else default_weights`
(`None` and the empty dict are falsy), then the clamped weighted sum. -/
def calculate_risk_score (age income current_savings monthly_surplus : ℝ)
    (goals : List ℝ) (risk_tolerance : ℝ) (weights : Option (List (String × ℝ))) :
    Except String ℝ :=
  (lookup_weights (match weights with
    | some ws => if ws.isEmpty then default_weights else ws
    | none => default_weights)).map
    (fun w => risk_score_core w age income current_savings monthly_surplus goals risk_tolerance)

/-- The `{"debt": d, "equity": e}` fraction pairs of the simple module. -/
structure AllocationFrac where
  debt : ℝ
  equity : ℝ

/-- `get_risk_category_from_score(risk_score)` (the copy in
`risk_assessment.py`): same five bands as in `fund_filtering.py`. -/
def get_risk_category_from_score (risk_score : ℝ) : String × AllocationFrac :=
  if risk_score ≤ 0.2 then ("Very Conservative", ⟨0.85, 0.15⟩)
  else if risk_score ≤ 0.4 then ("Conservative", ⟨0.70, 0.30⟩)
  else if risk_score ≤ 0.6 then ("Moderate", ⟨0.55, 0.45⟩)
  else if risk_score ≤ 0.8 then ("Growth", ⟨0.35, 0.65⟩)
  else ("Aggressive", ⟨0.20, 0.80⟩)

/-- Profile dict consumed by `analyze_user_risk_profile`: the four numeric
fields are required (a missing one is `None` in Python and raises a
`TypeError` inside the arithmetic, outside this typed model); `goals`,
`risk_tolerance` and `weights` have `.get` defaults. -/
structure UserData where
  age : ℝ
  income : ℝ
  current_savings : ℝ
  monthly_surplus : ℝ
  goals : List ℝ
  risk_tolerance : Option ℝ
  weights : Option (List (String × ℝ))

/-- The result dict of `analyze_user_risk_profile`. -/
structure Analysis where
  risk_score : ℝ
  risk_category : String
  debt_percentage : ℝ
  equity_percentage : ℝ
  allocation : AllocationFrac

/-- `analyze_user_risk_profile(user_data)`: score, then category and
percentages.  There is no exception handler in this module, so a `KeyError`
from the weights dict propagates to the caller. -/
def analyze_user_risk_profile (u : UserData) : Except String Analysis :=
  (calculate_risk_score u.age u.income u.current_savings u.monthly_surplus u.goals
      (u.risk_tolerance.getD 3) u.weights).map (fun rs =>
    { risk_score := pyRound rs 3
      risk_category := (get_risk_category_from_score rs).1
      debt_percentage := pyRound ((get_risk_category_from_score rs).2.debt * 100) 1
      equity_percentage := pyRound ((get_risk_category_from_score rs).2.equity * 100) 1
      allocation := (get_risk_category_from_score rs).2 })

end RiskAssessment

/-! ### `src/modules/risk_assessment_complex.py`

The `RiskAssessmentEngine`.  Its `calculate_risk_score` wraps the whole
computation in `try/except`; the partial operations reachable in the typed
model are the `weights[name]` dict accesses (in `_calculate_weighted_score`
and the `weighted_contributions` dict, hoisted here into `lookup_weights` —
the same six keys, so exactly the same profiles fail).  Everything else
either has a `.get` default or an internal try/except fallback. -/

namespace RiskAssessmentComplex

/-- `_validate_config`: weights must sum to 1.0 within 0.01, else
`ValueError`. -/
def validate_config (weights : List (String × ℝ)) : Except String Unit :=
  if 0.01 < |(weights.map Prod.snd).sum - 1.0| then
    Except.error "Weights must sum to 1.0"
  else Except.ok ()

/-- The engine object: it keeps its configured weights
(`self.config.WEIGHTS`). -/
structure RiskAssessmentEngine where
  weights : List (String × ℝ)

/-- `__init__`: store the config and run `_validate_config` (fail fast,
before any request is served). -/
def RiskAssessmentEngine.init (weights : List (String × ℝ)) :
    Except String RiskAssessmentEngine :=
  (validate_config weights).map (fun _ => ⟨weights⟩)

/-- Python `int(x)` on a float: truncation toward zero. -/
def pyInt (x : ℝ) : ℤ :=
  if 0 ≤ x then ⌊x⌋ else ⌈x⌉

/-- `_validate_age`: ages outside 18..100 (and non-numeric ages, outside the
typed model) become the default 30. -/
def validate_age (age : ℝ) : ℤ :=
  if pyInt age < 18 ∨ 100 < pyInt age then 30 else pyInt age

/-- `_validate_income`: negative incomes become 0 (non-numeric incomes, which
become 50000, are outside the typed model). -/
def validate_income (income : ℝ) : ℝ :=
  if income < 0 then 0 else income

/-- `_validate_risk_tolerance`: outside 1..10 becomes the default 5. -/
def validate_risk_tolerance (risk_tolerance : ℝ) : ℤ :=
  if pyInt risk_tolerance < 1 ∨ 10 < pyInt risk_tolerance then 5
  else pyInt risk_tolerance

/-- `_calculate_age_factor` (argument is the validated `int` age). -/
def calculate_age_factor (age : ℤ) : ℝ :=
  if age ≤ 25 then 1.0
  else if age ≤ 35 then 0.8
  else if age ≤ 45 then 0.6
  else if age ≤ 55 then 0.4
  else 0.2

/-- `_calculate_income_factor`: capped at `INCOME_CAP`, normalized,
clamped. -/
def calculate_income_factor (income : ℝ) : ℝ :=
  clamp01 (min income Settings.INCOME_CAP / Settings.INCOME_CAP)

/-- `_calculate_timeline_factor`: same formula as the simple module. -/
def calculate_timeline_factor (goals : List ℝ) : ℝ :=
  if ¬goals.isEmpty then
    clamp01 (log1p ((goals.map (fun months => months / 12)).sum / goals.length) / log1p 30)
  else 0.5

/-- `_calculate_surplus_factor(monthly_surplus, income)`: returns 0 outright
when `income ≤ 0`, otherwise the log-scaled ratio, clamped. -/
def calculate_surplus_factor (monthly_surplus income : ℝ) : ℝ :=
  if income ≤ 0 then 0
  else clamp01 (log1p (max monthly_surplus 0) / log1p (if 0 < income then income / 2 else 1))

/-- `_calculate_savings_factor(current_savings, monthly_income)`: returns 0
outright when `monthly_income ≤ 0`, otherwise months-of-income savings,
log-scaled and capped at 60 months, clamped. -/
def calculate_savings_factor (current_savings monthly_income : ℝ) : ℝ :=
  if monthly_income ≤ 0 then 0
  else clamp01 (log1p (current_savings / monthly_income) / log1p 60)

/-- `_calculate_tolerance_factor` (argument is the validated `int`):
1 ↦ 0, 10 ↦ 1. -/
def calculate_tolerance_factor (risk_tolerance : ℤ) : ℝ :=
  ((risk_tolerance : ℝ) - 1) / 9

/-- The six weights read out of the weights dict
(`weights['age_factor']`, ...). -/
structure EngineWeights where
  age_factor : ℝ
  income_factor : ℝ
  timeline_factor : ℝ
  surplus_factor : ℝ
  savings_factor : ℝ
  risk_tolerance_factor : ℝ

/-- The `weights[name]` accesses of `_calculate_weighted_score` and of the
`weighted_contributions` dict: the same six keys; a missing one raises
`KeyError` (caught by the top-level handler). -/
def lookup_weights (weights : List (String × ℝ)) : Except String EngineWeights := do
  let wa ← dictGet weights "age_factor"
  let wi ← dictGet weights "income_factor"
  let wt ← dictGet weights "timeline_factor"
  let ws ← dictGet weights "surplus_factor"
  let wsav ← dictGet weights "savings_factor"
  let wtol ← dictGet weights "risk_tolerance_factor"
  pure ⟨wa, wi, wt, ws, wsav, wtol⟩

/-- `_calculate_weighted_score`: `Σ weights[name] * factor`, clamped to
`[0, 1]` by `min(max(risk_score, 0), 1)`. -/
def calculate_weighted_score (w : EngineWeights)
    (af incf tf sf savf tolf : ℝ) : ℝ :=
  clamp01 (w.age_factor * af + w.income_factor * incf + w.timeline_factor * tf +
    w.surplus_factor * sf + w.savings_factor * savf + w.risk_tolerance_factor * tolf)

/-- `_get_risk_category_and_allocation`: iterate `RISK_CATEGORIES` in
insertion order, first band with `min_score <= risk_score <= max_score` wins;
fall back to Moderate when no band matches.  Every produced category is a key
of `ALLOCATIONS` (a missing key would be a `KeyError`, caught by the
top-level handler; the `getD` default is unreachable). -/
def get_risk_category_and_allocation (risk_score : ℝ) : String × Settings.Allocation :=
  match Settings.RISK_CATEGORIES.find?
      (fun b => decide (b.1.1 ≤ risk_score) && decide (risk_score ≤ b.1.2)) with
  | some b => (b.2, (Settings.ALLOCATIONS b.2).getD ⟨55, 45⟩)
  | none => ("Moderate", (Settings.ALLOCATIONS "Moderate").getD ⟨55, 45⟩)

/-- The `user_profile` dict: every field read with a `.get` default. -/
structure UserProfile where
  age : Option ℝ
  monthly_income : Option ℝ
  current_savings : Option ℝ
  monthly_surplus : Option ℝ
  goals : List ℝ
  risk_tolerance_score : Option ℝ
  custom_weights : Option (List (String × ℝ))

/-- The result dict of `RiskAssessmentEngine.calculate_risk_score`.
`error = true` marks the `'error'` key present only in the fallback dict. -/
structure RiskResult where
  risk_score : ℝ
  risk_category : String
  debt_allocation : ℕ
  equity_allocation : ℕ
  factor_breakdown : List (String × ℝ)
  weighted_contributions : List (String × ℝ)
  error : Bool

/-- `_get_default_conservative_profile`. -/
def default_conservative_profile : RiskResult :=
  ⟨0.3, "Conservative", 70, 30, [], [], true⟩

/-- Body of the `try` block of `calculate_risk_score`: extract/validate the
fields, compute the six factors, look the six weights up, combine. -/
def calcBody (cfgWeights : List (String × ℝ)) (p : UserProfile) :
    Except String RiskResult :=
  (lookup_weights (p.custom_weights.getD cfgWeights)).map (fun w =>
    let age := validate_age (p.age.getD 30)
    let income := validate_income (p.monthly_income.getD 50000)
    let current_savings := max (p.current_savings.getD 0) 0
    let monthly_surplus := max (p.monthly_surplus.getD 0) 0
    let risk_tolerance := validate_risk_tolerance (p.risk_tolerance_score.getD 5)
    let af := calculate_age_factor age
    let incf := calculate_income_factor income
    let tf := calculate_timeline_factor p.goals
    let sf := calculate_surplus_factor monthly_surplus income
    let savf := calculate_savings_factor current_savings income
    let tolf := calculate_tolerance_factor risk_tolerance
    let risk_score := calculate_weighted_score w af incf tf sf savf tolf
    let ca := get_risk_category_and_allocation risk_score
    { risk_score := pyRound risk_score 3
      risk_category := ca.1
      debt_allocation := ca.2.debt
      equity_allocation := ca.2.equity
      factor_breakdown :=
        [("age_factor", pyRound af 3), ("income_factor", pyRound incf 3),
         ("timeline_factor", pyRound tf 3), ("surplus_factor", pyRound sf 3),
         ("savings_factor", pyRound savf 3), ("tolerance_factor", pyRound tolf 3)]
      weighted_contributions :=
        [("age_contribution", pyRound (w.age_factor * af) 3),
         ("income_contribution", pyRound (w.income_factor * incf) 3),
         ("timeline_contribution", pyRound (w.timeline_factor * tf) 3),
         ("surplus_contribution", pyRound (w.surplus_factor * sf) 3),
         ("savings_contribution", pyRound (w.savings_factor * savf) 3),
         ("tolerance_contribution", pyRound (w.risk_tolerance_factor * tolf) 3)]
      error := false })

/-- `RiskAssessmentEngine.calculate_risk_score`: the `try/except` — any
exception in the body is converted to the default conservative profile. -/
def RiskAssessmentEngine.calculate_risk_score (e : RiskAssessmentEngine)
    (p : UserProfile) : RiskResult :=
  match calcBody e.weights p with
  | Except.ok r => r
  | Except.error _ => default_conservative_profile

/-- A weight configuration summing to 0.95 (a fixture: rejected at engine
initialization). -/
def weightsSum095 : List (String × ℝ) :=
  [("age_factor", 0.25), ("income_factor", 0.20), ("timeline_factor", 0.20),
   ("surplus_factor", 0.15), ("savings_factor", 0.10), ("risk_tolerance_factor", 0.05)]

/-- A weight configuration summing to 1.001 (a fixture: accepted at engine
initialization). -/
def weightsSum1001 : List (String × ℝ) :=
  [("age_factor", 0.25), ("income_factor", 0.20), ("timeline_factor", 0.20),
   ("surplus_factor", 0.15), ("savings_factor", 0.10), ("risk_tolerance_factor", 0.101)]

/-- Custom per-request weights summing to 0.5 (a fixture: scoring never
validates them). -/
def weightsSum05 : List (String × ℝ) :=
  [("age_factor", 0.1), ("income_factor", 0.1), ("timeline_factor", 0.1),
   ("surplus_factor", 0.1), ("savings_factor", 0.05), ("risk_tolerance_factor", 0.05)]

end RiskAssessmentComplex

end

/-! ## Theorems

Everything below is proved about the definitions above: first the generic
rounding and clamping lemmas, then the fund-filtering development, then the
claims. -/

theorem floor_le_roundHalfEven {α : Type} [LinearOrderedField α] [FloorRing α] (x : α) :
    ⌊x⌋ ≤ roundHalfEven x := by
  unfold roundHalfEven
  split_ifs <;> omega

theorem roundHalfEven_le {α : Type} [LinearOrderedField α] [FloorRing α] (x : α) :
    (roundHalfEven x : α) ≤ x + 1/2 := by
  have hfl : (⌊x⌋ : α) ≤ x := Int.floor_le x
  unfold roundHalfEven
  split_ifs with h1 h2 h3 <;> push_cast <;> linarith

theorem roundHalfEven_nonneg {α : Type} [LinearOrderedField α] [FloorRing α]
    {x : α} (hx : 0 ≤ x) : 0 ≤ roundHalfEven x :=
  le_trans (Int.floor_nonneg.mpr hx) (floor_le_roundHalfEven x)

theorem pyRound_nonneg {α : Type} [LinearOrderedField α] [FloorRing α]
    {x : α} (n : ℕ) (hx : 0 ≤ x) : 0 ≤ pyRound x n := by
  unfold pyRound
  have h10 : (0 : α) < 10 ^ n := by positivity
  have hz : 0 ≤ roundHalfEven (x * 10 ^ n) :=
    roundHalfEven_nonneg (by positivity)
  have : (0 : α) ≤ ((roundHalfEven (x * 10 ^ n) : ℤ) : α) := by exact_mod_cast hz
  positivity

theorem pyRound_le {α : Type} [LinearOrderedField α] [FloorRing α]
    {x : α} (n : ℕ) (m : ℤ) (h : x ≤ m) : pyRound x n ≤ m := by
  unfold pyRound
  have h10 : (0 : α) < 10 ^ n := by positivity
  have h1 : (roundHalfEven (x * 10 ^ n) : α) ≤ x * 10 ^ n + 1/2 :=
    roundHalfEven_le (x * 10 ^ n)
  have h2 : ((roundHalfEven (x * 10 ^ n) : ℤ) : α) < ((m * 10 ^ n + 1 : ℤ) : α) := by
    push_cast
    nlinarith
  have h3 : roundHalfEven (x * 10 ^ n) ≤ m * 10 ^ n := by
    have h4 : roundHalfEven (x * 10 ^ n) < m * 10 ^ n + 1 := by exact_mod_cast h2
    omega
  rw [div_le_iff₀ h10]
  calc ((roundHalfEven (x * 10 ^ n) : ℤ) : α) ≤ ((m * 10 ^ n : ℤ) : α) := by
        exact_mod_cast h3
    _ = (m : α) * 10 ^ n := by push_cast; ring

theorem clamp01_nonneg (x : ℝ) : 0 ≤ clamp01 x :=
  le_min (le_max_right x 0) zero_le_one

theorem clamp01_le_one (x : ℝ) : clamp01 x ≤ 1 :=
  min_le_right _ _


namespace FundFiltering

/-! #### Structural lemmas about `fund_filtering` -/

theorem apply_category_filters_nil (category : String) :
    apply_category_filters [] category = [] := rfl

/-- Membership in the filtered shortlist, spelling out the four conditions. -/
theorem mem_apply_category_filters (category_funds : List FundRecord) (category : String)
    (f : FundRecord) :
    f ∈ apply_category_filters category_funds category ↔
      f ∈ category_funds ∧
      quantile (category_funds.map (fun g => g.three_yr_return)) 0.5 < f.three_yr_return ∧
      f.expense_ratio < get_expense_threshold category ∧
      (3 : ℚ) < f.age_years ∧
      quantile (category_funds.map (fun g => g.sharpe_ratio)) 0.75 < f.sharpe_ratio := by
  simp [apply_category_filters, List.mem_filter, and_assoc]

/-- What a `some` result of the loop body contains: the category name itself,
the share times the split percentage, and the fact that the filtered
shortlist was non-empty. -/
theorem process_category_some {u : List FundRecord} {share : ℚ} {c : String} {pct : ℚ}
    {e : String × SubAlloc} (h : process_category u share c pct = some e) :
    e.1 = c ∧ e.2.allocation_pct = share * pct ∧
    apply_category_filters (u.filter (fun f => f.category == c)) c ≠ [] := by
  simp only [process_category] at h
  split_ifs at h with h1 h2
  cases h
  exact ⟨rfl, rfl, by simpa [List.isEmpty_iff] using h2⟩

/-- Sum of the recorded allocations over a filter-mapped split list is at most
the share times the sum of the split percentages. -/
theorem allocSum_filterMap_le (u : List FundRecord) (share : ℚ) (hs : 0 ≤ share)
    (l : List (String × ℚ)) :
    (∀ p ∈ l, 0 ≤ p.2) →
      ((l.filterMap (fun p => process_category u share p.1 p.2)).map
          (fun e => e.2.allocation_pct)).sum ≤ share * (l.map Prod.snd).sum := by
  induction l with
  | nil => simp
  | cons p t ih =>
    intro hl
    have hp : 0 ≤ p.2 := hl p (List.mem_cons_self p t)
    have iht := ih (fun q hq => hl q (List.mem_cons_of_mem p hq))
    rw [List.filterMap_cons]
    cases hpc : process_category u share p.1 p.2 with
    | none =>
      have hsp : 0 ≤ share * p.2 := mul_nonneg hs hp
      simp only [List.map_cons, List.sum_cons]
      calc ((t.filterMap (fun p => process_category u share p.1 p.2)).map
              (fun e => e.2.allocation_pct)).sum
          ≤ share * (t.map Prod.snd).sum := iht
        _ ≤ share * (p.2 + (t.map Prod.snd).sum) := by nlinarith
    | some e =>
      have he := (process_category_some hpc).2.1
      simp only [List.map_cons, List.sum_cons, he]
      have : share * (p.2 + (t.map Prod.snd).sum) = share * p.2 + share * (t.map Prod.snd).sum := by
        ring
      rw [this]
      exact add_le_add_left iht _

/-- Concrete facts about every baseline allocation pair: nonneg components,
components summing to 1, and the smaller component at most 0.45. -/
theorem allocation_split_facts (s : ℚ) :
    0 ≤ (get_risk_category_from_score s).2.equity ∧
    0 ≤ (get_risk_category_from_score s).2.debt ∧
    (get_risk_category_from_score s).2.equity + (get_risk_category_from_score s).2.debt = 1 ∧
    min (get_risk_category_from_score s).2.equity (get_risk_category_from_score s).2.debt
      ≤ 0.45 := by
  unfold get_risk_category_from_score
  split_ifs <;> norm_num [min_def]

/-- What membership in the hybrid carve-out entry list implies. -/
theorem mem_hybrid_entries {u : List FundRecord} {a : AllocationSplit} {c : String}
    {sa : SubAlloc} (h : (c, sa) ∈ hybrid_entries u a) :
    c = "hybrid" ∧
    sa.allocation_pct = min (min (0.15 : ℚ) (a.equity * 0.2)) (a.debt * 0.2) ∧
    apply_category_filters (u.filter (fun f => f.category == "hybrid")) "hybrid" ≠ [] ∧
    0.2 < a.equity ∧ 0.2 < a.debt := by
  unfold hybrid_entries at h
  split_ifs at h with h1 h2 h3
  · exact absurd h (List.not_mem_nil _)
  · exact absurd h (List.not_mem_nil _)
  · simp only [List.mem_singleton, Prod.mk.injEq] at h
    obtain ⟨rfl, rfl⟩ := h
    exact ⟨rfl, rfl, by simpa [List.isEmpty_iff] using h3, h1.1, h1.2⟩
  · exact absurd h (List.not_mem_nil _)

/-- When the hybrid carve-out conditions hold, the carve-out entry is exactly
the singleton with the `min(0.15, equity*0.2, debt*0.2)` allocation. -/
theorem hybrid_entries_eq_of {u : List FundRecord} {a : AllocationSplit}
    (h1 : 0.2 < a.equity) (h2 : 0.2 < a.debt)
    (h3 : apply_category_filters (u.filter (fun f => f.category == "hybrid")) "hybrid" ≠ []) :
    hybrid_entries u a =
      [("hybrid", SubAlloc.mk
          (min (min (0.15 : ℚ) (a.equity * 0.2)) (a.debt * 0.2))
          (get_top_funds (apply_category_filters
            (u.filter (fun f => f.category == "hybrid")) "hybrid")))] := by
  have hcf : ¬(u.filter (fun f => f.category == "hybrid")).isEmpty = true := by
    intro he
    apply h3
    rw [List.isEmpty_iff.mp he]
    rfl
  have hfe : ¬(apply_category_filters (u.filter (fun f => f.category == "hybrid"))
      "hybrid").isEmpty = true := by
    simpa [List.isEmpty_iff] using h3
  unfold hybrid_entries
  rw [if_pos ⟨h1, h2⟩, if_neg hcf, if_neg hfe]

/-- The hybrid carve-out contributes at most `min(0.15, equity*0.2, debt*0.2)`
to the allocation sum (and `0` when absent). -/
theorem hybrid_entries_sum_le (u : List FundRecord) (a : AllocationSplit) {b : ℚ}
    (hb0 : 0 ≤ b)
    (hb : min (min (0.15 : ℚ) (a.equity * 0.2)) (a.debt * 0.2) ≤ b) :
    ((hybrid_entries u a).map (fun e => e.2.allocation_pct)).sum ≤ b := by
  unfold hybrid_entries
  split_ifs
  all_goals simp only [List.map_nil, List.sum_nil, List.map_cons, List.sum_cons, add_zero]
  all_goals first | exact hb0 | exact hb

/-- Every entry of the `filter_funds` dict carries its nominal (baseline)
allocation share, has one of the five known names, corresponds to a
non-empty filtered shortlist, and is the hybrid entry only under the
carve-out conditions. -/
theorem mem_filter_funds_entries {u : List FundRecord} {s : ℚ} {c : String} {sa : SubAlloc}
    (h : (c, sa) ∈ (filter_funds u s).2) :
    sa.allocation_pct = nominal_alloc (get_risk_category_from_score s).2 c ∧
    c ∈ (["large_cap", "mid_cap", "small_cap", "debt", "hybrid"] : List String) ∧
    apply_category_filters (u.filter (fun f => f.category == c)) c ≠ [] ∧
    (c = "hybrid" → 0.2 < (get_risk_category_from_score s).2.equity ∧
      0.2 < (get_risk_category_from_score s).2.debt) := by
  unfold filter_funds at h
  simp only [List.mem_append] at h
  rcases h with (h | h) | h
  · -- equity loop entries
    rcases Decidable.em (0 < (get_risk_category_from_score s).2.equity) with hpos | hpos
    · rw [if_pos hpos] at h
      rcases List.mem_filterMap.mp h with ⟨p, hp, hpc⟩
      obtain ⟨hc, ha, hne⟩ := process_category_some hpc
      have hp' : p = ("large_cap", (0.5 : ℚ)) ∨ p = ("mid_cap", (0.3 : ℚ)) ∨
          p = ("small_cap", (0.2 : ℚ)) := by
        simpa [equity_split] using hp
      rcases hp' with rfl | rfl | rfl <;>
        simp_all [nominal_alloc]
    · rw [if_neg hpos] at h
      cases h
  · -- debt loop entries
    rcases Decidable.em (0 < (get_risk_category_from_score s).2.debt) with hpos | hpos
    · rw [if_pos hpos] at h
      rcases List.mem_filterMap.mp h with ⟨p, hp, hpc⟩
      obtain ⟨hc, ha, hne⟩ := process_category_some hpc
      have hp' : p = ("debt", (1.0 : ℚ)) := by simpa [debt_split] using hp
      subst hp'
      simp_all [nominal_alloc]
    · rw [if_neg hpos] at h
      cases h
  · -- hybrid entry
    obtain ⟨rfl, hall, hne, hq1, hq2⟩ := mem_hybrid_entries h
    refine ⟨?_, by norm_num, hne, fun _ => ⟨hq1, hq2⟩⟩
    rw [hall]
    unfold nominal_alloc
    rw [if_neg (by decide), if_neg (by decide), if_neg (by decide), if_neg (by decide)]

/-- The hybrid carve-out is present exactly when both baseline shares are
strictly above 0.2 and some hybrid fund survives the filters. -/
theorem hybrid_mem_filter_funds_iff (u : List FundRecord) (s : ℚ) :
    "hybrid" ∈ (filter_funds u s).2.map Prod.fst ↔
      (0.2 < (get_risk_category_from_score s).2.equity ∧
       0.2 < (get_risk_category_from_score s).2.debt ∧
       apply_category_filters (u.filter (fun f => f.category == "hybrid")) "hybrid" ≠ []) := by
  constructor
  · intro h
    rcases List.mem_map.mp h with ⟨⟨c, sa⟩, hmem, hc⟩
    obtain rfl : c = "hybrid" := hc
    obtain ⟨-, -, hne, hcond⟩ := mem_filter_funds_entries hmem
    exact ⟨(hcond rfl).1, (hcond rfl).2, hne⟩
  · rintro ⟨h1, h2, h3⟩
    unfold filter_funds
    rw [hybrid_entries_eq_of h1 h2 h3]
    simp

/-- The sum of the raw allocation fractions recorded by `filter_funds` never
exceeds `1.09`: the surviving equity sub-splits total at most the equity
share, debt at most the debt share, these sum to 1 in every band, and the
hybrid carve-out adds at most `0.09`. -/
theorem raw_allocation_sum_le (u : List FundRecord) (s : ℚ) :
    (((filter_funds u s).2.map (fun e => e.2.allocation_pct)).sum) ≤ 1.09 := by
  obtain ⟨he0, hd0, hsum1, hmin⟩ := allocation_split_facts s
  unfold filter_funds
  rw [List.map_append, List.map_append, List.sum_append, List.sum_append]
  have heq : ((if 0 < (get_risk_category_from_score s).2.equity then
        equity_split.filterMap (fun p =>
          process_category u (get_risk_category_from_score s).2.equity p.1 p.2)
      else []).map (fun e => e.2.allocation_pct)).sum
      ≤ (get_risk_category_from_score s).2.equity := by
    split_ifs with hpos
    · have hle := allocSum_filterMap_le u (get_risk_category_from_score s).2.equity he0
        equity_split (by intro p hp; fin_cases hp <;> norm_num)
      have hsplit : (equity_split.map Prod.snd).sum = 1 := by
        norm_num [equity_split]
      rw [hsplit] at hle
      linarith
    · simpa using he0
  have hdebt : ((if 0 < (get_risk_category_from_score s).2.debt then
        debt_split.filterMap (fun p =>
          process_category u (get_risk_category_from_score s).2.debt p.1 p.2)
      else []).map (fun e => e.2.allocation_pct)).sum
      ≤ (get_risk_category_from_score s).2.debt := by
    split_ifs with hpos
    · have hle := allocSum_filterMap_le u (get_risk_category_from_score s).2.debt hd0
        debt_split (by intro p hp; fin_cases hp; norm_num)
      have hsplit : (debt_split.map Prod.snd).sum = 1 := by
        norm_num [debt_split]
      rw [hsplit] at hle
      linarith
    · simpa using hd0
  have hminmul : min (min (0.15 : ℚ) ((get_risk_category_from_score s).2.equity * 0.2))
      ((get_risk_category_from_score s).2.debt * 0.2) ≤ 0.09 := by
    rcases le_total (get_risk_category_from_score s).2.equity
        (get_risk_category_from_score s).2.debt with hle | hle
    · have h1 : min (get_risk_category_from_score s).2.equity
          (get_risk_category_from_score s).2.debt
          = (get_risk_category_from_score s).2.equity := min_eq_left hle
      have h2 : min (min (0.15 : ℚ) ((get_risk_category_from_score s).2.equity * 0.2))
          ((get_risk_category_from_score s).2.debt * 0.2)
          ≤ (get_risk_category_from_score s).2.equity * 0.2 :=
        le_trans (min_le_left _ _) (min_le_right _ _)
      rw [h1] at hmin
      linarith
    · have h1 : min (get_risk_category_from_score s).2.equity
          (get_risk_category_from_score s).2.debt
          = (get_risk_category_from_score s).2.debt := min_eq_right hle
      have h2 : min (min (0.15 : ℚ) ((get_risk_category_from_score s).2.equity * 0.2))
          ((get_risk_category_from_score s).2.debt * 0.2)
          ≤ (get_risk_category_from_score s).2.debt * 0.2 := min_le_right _ _
      rw [h1] at hmin
      linarith
  have hhyb := hybrid_entries_sum_le u (get_risk_category_from_score s).2
    (by norm_num : (0 : ℚ) ≤ 0.09) hminmul
  have hgoal : (get_risk_category_from_score s).2.equity +
      (get_risk_category_from_score s).2.debt + 0.09 ≤ 1.09 := by
    rw [hsum1]
    norm_num
  linarith [heq, hdebt, hhyb]

/-- `round(0, 1) = 0`. -/
theorem pyRound_zero {α : Type} [LinearOrderedField α] [FloorRing α] (n : ℕ) :
    pyRound (0 : α) n = 0 := by
  norm_num [pyRound, roundHalfEven]

/-- On an empty fund universe the recommendation is empty and its total
allocation is 0 (an example of the total falling short of 100%). -/
theorem create_empty_total (s : ℚ) :
    (create_portfolio_recommendations [] s).total_allocation = 0 := by
  unfold create_portfolio_recommendations filter_funds
  simp [process_category, equity_split, debt_split, hybrid_entries, pyRound_zero]

theorem quantile_pair_half : quantile [10, 20] 0.5 = 15 := by
  simp only [quantile, List.insertionSort, List.orderedInsert]
  norm_num [Int.fract]

theorem quantile_pair_q75 : quantile [1, 2] 0.75 = 7/4 := by
  simp only [quantile, List.insertionSort, List.orderedInsert]
  norm_num [Int.fract]

/-- On a two-sample-fund category list the filters keep exactly `Sample B`
(for any category whose expense threshold exceeds 1). -/
theorem sample_filter (c : String) (hc : (1 : ℚ) < get_expense_threshold c) :
    apply_category_filters [sampleFundA c, sampleFundB c] c = [sampleFundB c] := by
  unfold apply_category_filters
  simp only [List.map_cons, List.map_nil, sampleFundA, sampleFundB, quantile_pair_half,
    quantile_pair_q75]
  simp only [List.filter_cons, List.filter_nil, Bool.and_eq_true, decide_eq_true_eq]
  norm_num [hc]

theorem get_top_funds_singleton (f : FundRecord) : get_top_funds [f] = [⟨f, 0⟩] := by
  unfold get_top_funds normalize
  simp [List.insertionSort]

theorem sample_process (c : String) (hc : (1 : ℚ) < get_expense_threshold c)
    (share pct : ℚ)
    (hcat : sampleUniverse.filter (fun f => f.category == c) = [sampleFundA c, sampleFundB c]) :
    process_category sampleUniverse share c pct =
      some (c, ⟨share * pct, [⟨sampleFundB c, 0⟩]⟩) := by
  simp only [process_category]
  rw [hcat, sample_filter c hc, get_top_funds_singleton]
  simp

theorem sample_cat_large :
    sampleUniverse.filter (fun f => f.category == "large_cap")
      = [sampleFundA "large_cap", sampleFundB "large_cap"] := by
  simp [sampleUniverse, sampleFundA, sampleFundB]

theorem sample_cat_mid :
    sampleUniverse.filter (fun f => f.category == "mid_cap")
      = [sampleFundA "mid_cap", sampleFundB "mid_cap"] := by
  simp [sampleUniverse, sampleFundA, sampleFundB]

theorem sample_cat_small :
    sampleUniverse.filter (fun f => f.category == "small_cap")
      = [sampleFundA "small_cap", sampleFundB "small_cap"] := by
  simp [sampleUniverse, sampleFundA, sampleFundB]

theorem sample_cat_debt :
    sampleUniverse.filter (fun f => f.category == "debt")
      = [sampleFundA "debt", sampleFundB "debt"] := by
  simp [sampleUniverse, sampleFundA, sampleFundB]

theorem sample_cat_hybrid :
    sampleUniverse.filter (fun f => f.category == "hybrid")
      = [sampleFundA "hybrid", sampleFundB "hybrid"] := by
  simp [sampleUniverse, sampleFundA, sampleFundB]

theorem grc_half :
    get_risk_category_from_score 0.5 = ("Moderate", ⟨0.55, 0.45⟩) := by
  unfold get_risk_category_from_score
  rw [if_neg (by norm_num), if_neg (by norm_num), if_pos (by norm_num)]

/-- Full evaluation of `filter_funds` on the sample universe at risk score
0.5 (the Moderate band). -/
theorem sample_filter_funds :
    filter_funds sampleUniverse 0.5 =
      ("Moderate",
        [("large_cap", ⟨0.45 * 0.5, [⟨sampleFundB "large_cap", 0⟩]⟩),
         ("mid_cap", ⟨0.45 * 0.3, [⟨sampleFundB "mid_cap", 0⟩]⟩),
         ("small_cap", ⟨0.45 * 0.2, [⟨sampleFundB "small_cap", 0⟩]⟩),
         ("debt", ⟨0.55 * 1.0, [⟨sampleFundB "debt", 0⟩]⟩),
         ("hybrid", ⟨min (min (0.15 : ℚ) (0.45 * 0.2)) (0.55 * 0.2),
            [⟨sampleFundB "hybrid", 0⟩]⟩)]) := by
  unfold filter_funds
  rw [grc_half]
  rw [hybrid_entries_eq_of (by norm_num) (by norm_num)
      (by rw [sample_cat_hybrid, sample_filter "hybrid" (by simp [get_expense_threshold]; norm_num)]
          exact List.cons_ne_nil _ _)]
  rw [if_pos (by norm_num), if_pos (by norm_num)]
  simp only [equity_split, debt_split, List.filterMap_cons, List.filterMap_nil]
  rw [sample_process "large_cap" (by simp [get_expense_threshold]; norm_num) _ _ sample_cat_large,
      sample_process "mid_cap" (by simp [get_expense_threshold]; norm_num) _ _ sample_cat_mid,
      sample_process "small_cap" (by simp [get_expense_threshold]; norm_num) _ _ sample_cat_small,
      sample_process "debt" (by simp [get_expense_threshold]; norm_num) _ _ sample_cat_debt]
  rw [sample_cat_hybrid, sample_filter "hybrid" (by simp [get_expense_threshold]; norm_num),
      get_top_funds_singleton]
  norm_num

/-- The total allocation of the sample recommendation at score 0.5 is 109%. -/
theorem sample_total_allocation :
    (create_portfolio_recommendations sampleUniverse 0.5).total_allocation = 109 := by
  unfold create_portfolio_recommendations
  rw [sample_filter_funds]
  simp only [List.map_cons, List.map_nil, List.sum_cons, List.sum_nil]
  norm_num [min_def, pyRound, roundHalfEven]


end FundFiltering

/-! ## Claims -/

/-- C1 counterexample: on a universe with surviving funds in every category
and risk score 0.5 (Moderate), the total allocation percentage returned by
`create_portfolio_recommendations` is 109%, which exceeds 100% by 9 points —
far beyond any floating-point epsilon. -/
theorem spec_c1_counterexample :
    (FundFiltering.create_portfolio_recommendations FundFiltering.sampleUniverse
        0.5).total_allocation = 109 ∧ (100 : ℚ) + 1/1000 < 109 :=
  ⟨FundFiltering.sample_total_allocation, by norm_num⟩

/-- C1 (corrected): for every fund universe and risk score the total
allocation percentage of the recommendation is at most 109% (the 100%
baseline plus the additive hybrid carve-out of at most 9 points); it can
fall short of 100% (on the empty universe it is 0%). -/
theorem spec_c1 (u : List FundFiltering.FundRecord) (s : ℚ) :
    (FundFiltering.create_portfolio_recommendations u s).total_allocation ≤ 109 ∧
    (FundFiltering.create_portfolio_recommendations [] s).total_allocation = 0 := by
  refine ⟨?_, FundFiltering.create_empty_total s⟩
  have hraw := FundFiltering.raw_allocation_sum_le u s
  have h : (((FundFiltering.filter_funds u s).2.map
      (fun e => e.2.allocation_pct)).sum) * 100 ≤ ((109 : ℤ) : ℚ) := by
    push_cast
    linarith
  have hle := pyRound_le 1 109 h
  unfold FundFiltering.create_portfolio_recommendations
  simpa using hle

/-- C5 (confirmed): a hybrid entry appears iff baseline equity > 0.2,
baseline debt > 0.2 and some hybrid fund survives filtering; its allocation
is `min(0.15, equity*0.2, debt*0.2)`, additive on top of the equity/debt
sub-splits, which keep their nominal values; for the Moderate baseline
(debt 0.55, equity 0.45) that hybrid allocation is exactly 0.09. -/
theorem spec_c5 (u : List FundFiltering.FundRecord) (s : ℚ) :
    ("hybrid" ∈ (FundFiltering.filter_funds u s).2.map Prod.fst ↔
      (0.2 < (FundFiltering.get_risk_category_from_score s).2.equity ∧
       0.2 < (FundFiltering.get_risk_category_from_score s).2.debt ∧
       FundFiltering.apply_category_filters
         (u.filter (fun f => f.category == "hybrid")) "hybrid" ≠ [])) ∧
    (∀ sa : FundFiltering.SubAlloc, ("hybrid", sa) ∈ (FundFiltering.filter_funds u s).2 →
      sa.allocation_pct =
        min (min (0.15 : ℚ) ((FundFiltering.get_risk_category_from_score s).2.equity * 0.2))
          ((FundFiltering.get_risk_category_from_score s).2.debt * 0.2)) ∧
    (∀ (c : String) (sa : FundFiltering.SubAlloc),
      (c, sa) ∈ (FundFiltering.filter_funds u s).2 → c ≠ "hybrid" →
      sa.allocation_pct =
        (if c = "large_cap" then (FundFiltering.get_risk_category_from_score s).2.equity * 0.5
         else if c = "mid_cap" then (FundFiltering.get_risk_category_from_score s).2.equity * 0.3
         else if c = "small_cap" then (FundFiltering.get_risk_category_from_score s).2.equity * 0.2
         else (FundFiltering.get_risk_category_from_score s).2.debt * 1.0)) ∧
    ((FundFiltering.get_risk_category_from_score (0.5 : ℚ)).2
        = FundFiltering.AllocationSplit.mk 0.55 0.45 ∧
      min (min (0.15 : ℚ) ((0.45 : ℚ) * 0.2)) ((0.55 : ℚ) * 0.2) = 0.09) := by
  refine ⟨FundFiltering.hybrid_mem_filter_funds_iff u s, ?_, ?_, ?_, ?_⟩
  · intro sa h
    obtain ⟨ha, -, -, -⟩ := FundFiltering.mem_filter_funds_entries h
    rw [ha]
    unfold FundFiltering.nominal_alloc
    rw [if_neg (by decide), if_neg (by decide), if_neg (by decide), if_neg (by decide)]
  · intro c sa h hne
    obtain ⟨ha, hmem5, -, -⟩ := FundFiltering.mem_filter_funds_entries h
    have hc : c = "large_cap" ∨ c = "mid_cap" ∨ c = "small_cap" ∨ c = "debt" ∨ c = "hybrid" := by
      simpa using hmem5
    rcases hc with rfl | rfl | rfl | rfl | rfl
    · rw [ha]; simp [FundFiltering.nominal_alloc]
    · rw [ha]; simp [FundFiltering.nominal_alloc]
    · rw [ha]; simp [FundFiltering.nominal_alloc]
    · rw [ha]; simp [FundFiltering.nominal_alloc]
    · exact absurd rfl hne
  · rw [FundFiltering.grc_half]
  · norm_num [min_def]

/-- C5 witness: on the sample universe at score 0.5 the hybrid entry is
present. -/
theorem spec_c5_witness :
    "hybrid" ∈ (FundFiltering.filter_funds FundFiltering.sampleUniverse 0.5).2.map Prod.fst :=
  (spec_c5 FundFiltering.sampleUniverse 0.5).1.mpr
    ⟨by rw [FundFiltering.grc_half]; norm_num,
     by rw [FundFiltering.grc_half]; norm_num,
     by
       rw [FundFiltering.sample_cat_hybrid, FundFiltering.sample_filter "hybrid"
         (by simp [FundFiltering.get_expense_threshold]; norm_num)]
       exact List.cons_ne_nil _ _⟩

/-- C6 (confirmed): if a sub-category has no surviving funds (no records of
that category, or all filtered out), it is omitted from the recommendation
entirely, and every surviving entry keeps its nominal share as a function of
the risk score alone (nothing is redistributed). -/
theorem spec_c6 (u : List FundFiltering.FundRecord) (s : ℚ) (c : String) :
    c ∈ (["large_cap", "mid_cap", "small_cap", "debt"] : List String) →
    FundFiltering.apply_category_filters (u.filter (fun f => f.category == c)) c = [] →
    (c ∉ (FundFiltering.filter_funds u s).2.map Prod.fst) ∧
    (∀ (d : String) (sa : FundFiltering.SubAlloc), (d, sa) ∈ (FundFiltering.filter_funds u s).2 →
      sa.allocation_pct =
        FundFiltering.nominal_alloc (FundFiltering.get_risk_category_from_score s).2 d) := by
  intro hc hempty
  constructor
  · intro hmem
    rcases List.mem_map.mp hmem with ⟨⟨d, sa⟩, hmem2, hd⟩
    obtain rfl : d = c := hd
    obtain ⟨-, -, hne, -⟩ := FundFiltering.mem_filter_funds_entries hmem2
    exact hne hempty
  · intro d sa h
    exact (FundFiltering.mem_filter_funds_entries h).1

/-- C6 witness: a universe without `small_cap` records omits `small_cap`. -/
theorem spec_c6_witness :
    "small_cap" ∉ (FundFiltering.filter_funds FundFiltering.sampleUniverseNoSmall
        0.5).2.map Prod.fst :=
  (spec_c6 FundFiltering.sampleUniverseNoSmall 0.5 "small_cap" (by simp)
    (by
      rw [show FundFiltering.sampleUniverseNoSmall.filter
            (fun f => f.category == "small_cap") = [] from by
          simp [FundFiltering.sampleUniverseNoSmall, FundFiltering.sampleFundA,
            FundFiltering.sampleFundB]]
      rfl)).1

/-- C7 (confirmed): a fund survives `apply_category_filters` iff it belongs
to the category subset and passes all four strict filters: 3yr return above
the subset's median, expense ratio below the category threshold (large_cap
2.0, mid_cap 2.25, small_cap 2.5, debt 1.5, hybrid 2.0, unknown 2.0), age
above 3 years, and sharpe ratio above the subset's 75th percentile — both
quantiles taken over the category subset itself. -/
theorem spec_c7 (category_funds : List FundFiltering.FundRecord) (category : String)
    (f : FundFiltering.FundRecord) :
    f ∈ FundFiltering.apply_category_filters category_funds category ↔
      f ∈ category_funds ∧
      FundFiltering.quantile (category_funds.map (fun g => g.three_yr_return)) 0.5
        < f.three_yr_return ∧
      f.expense_ratio <
        (if category = "large_cap" then (2.0 : ℚ)
         else if category = "mid_cap" then 2.25
         else if category = "small_cap" then 2.5
         else if category = "debt" then 1.5
         else if category = "hybrid" then 2.0
         else 2.0) ∧
      (3 : ℚ) < f.age_years ∧
      FundFiltering.quantile (category_funds.map (fun g => g.sharpe_ratio)) 0.75
        < f.sharpe_ratio :=
  FundFiltering.mem_apply_category_filters category_funds category f

/-! ### Helpers for the risk-module claims -/

theorem clamp01_eq_one_of_one_le {x : ℝ} (hx : 1 ≤ x) : clamp01 x = 1 := by
  unfold clamp01
  rw [max_eq_left (le_trans zero_le_one hx), min_eq_right hx]

theorem except_map_ok {α β : Type} {f : α → β} {e : Except String α} {r : β}
    (h : e.map f = Except.ok r) : ∃ a, e = Except.ok a ∧ r = f a := by
  cases e with
  | error msg => simp [Except.map] at h
  | ok a =>
    simp only [Except.map, Except.ok.injEq] at h
    exact ⟨a, rfl, h.symm⟩

/-- Every successful result of the engine's scoring body has `error = false`
and a risk score in `[0, 1]` (the clamp, then Python's 3-digit rounding). -/
theorem calcBody_ok_shape {cfg : List (String × ℝ)}
    {p : RiskAssessmentComplex.UserProfile} {r : RiskAssessmentComplex.RiskResult}
    (h : RiskAssessmentComplex.calcBody cfg p = Except.ok r) :
    r.error = false ∧ 0 ≤ r.risk_score ∧ r.risk_score ≤ 1 := by
  unfold RiskAssessmentComplex.calcBody at h
  obtain ⟨w, -, rfl⟩ := except_map_ok h
  refine ⟨rfl, ?_, ?_⟩
  · exact pyRound_nonneg 3 (clamp01_nonneg _)
  · have hb : RiskAssessmentComplex.calculate_weighted_score w
        (RiskAssessmentComplex.calculate_age_factor
          (RiskAssessmentComplex.validate_age (p.age.getD 30)))
        (RiskAssessmentComplex.calculate_income_factor
          (RiskAssessmentComplex.validate_income (p.monthly_income.getD 50000)))
        (RiskAssessmentComplex.calculate_timeline_factor p.goals)
        (RiskAssessmentComplex.calculate_surplus_factor
          (max (p.monthly_surplus.getD 0) 0)
          (RiskAssessmentComplex.validate_income (p.monthly_income.getD 50000)))
        (RiskAssessmentComplex.calculate_savings_factor
          (max (p.current_savings.getD 0) 0)
          (RiskAssessmentComplex.validate_income (p.monthly_income.getD 50000)))
        (RiskAssessmentComplex.calculate_tolerance_factor
          (RiskAssessmentComplex.validate_risk_tolerance
            (p.risk_tolerance_score.getD 5))) ≤ ((1 : ℤ) : ℝ) := by
      push_cast
      exact clamp01_le_one _
    simpa using pyRound_le 3 1 hb

/-- C2 counterexample: in the simple `risk_assessment.py` module, a profile
with income 0 and surplus 10 (savings 100) gets surplus and savings factors
equal to 1, not 0 — the claim fails on that module. -/
theorem spec_c2_counterexample :
    RiskAssessment.surplus_factor 0 10 = 1 ∧ RiskAssessment.surplus_factor 0 10 ≠ 0 ∧
    RiskAssessment.savings_factor 0 100 = 1 ∧ RiskAssessment.savings_factor 0 100 ≠ 0 := by
  have hs : RiskAssessment.surplus_factor 0 10 = 1 := by
    have hb : RiskAssessment.surplus_factor 0 10 = clamp01 (log1p 10 / log1p 1) := by
      unfold RiskAssessment.surplus_factor
      rw [if_neg (lt_irrefl 0)]
      norm_num
    have h2 : (0 : ℝ) < Real.log 2 := Real.log_pos (by norm_num)
    have h11 : Real.log 2 ≤ Real.log 11 := Real.log_le_log (by norm_num) (by norm_num)
    have hge : 1 ≤ log1p 10 / log1p 1 := by
      unfold log1p
      norm_num
      rw [le_div_iff₀ h2]
      linarith
    rw [hb, clamp01_eq_one_of_one_le hge]
  have hv : RiskAssessment.savings_factor 0 100 = 1 := by
    have hb : RiskAssessment.savings_factor 0 100 = clamp01 (log1p 100 / log1p 60) := by
      unfold RiskAssessment.savings_factor
      rw [if_neg (lt_irrefl 0)]
      norm_num
    have h61 : (0 : ℝ) < Real.log 61 := Real.log_pos (by norm_num)
    have h101 : Real.log 61 ≤ Real.log 101 := Real.log_le_log (by norm_num) (by norm_num)
    have hge : 1 ≤ log1p 100 / log1p 60 := by
      unfold log1p
      norm_num
      rw [le_div_iff₀ h61]
      linarith
    rw [hb, clamp01_eq_one_of_one_le hge]
  exact ⟨hs, by rw [hs]; norm_num, hv, by rw [hv]; norm_num⟩

/-- C2 (corrected): when income ≤ 0, the `RiskAssessmentEngine`
(`risk_assessment_complex.py`) returns surplus and savings factors of
exactly 0; the simple `risk_assessment.py` module instead substitutes the
constant 1 for the income-derived denominators, so no division by zero
occurs there either, but its factors need not be 0. -/
theorem spec_c2 (income monthly_surplus current_savings : ℝ) (h : income ≤ 0) :
    RiskAssessmentComplex.calculate_surplus_factor monthly_surplus income = 0 ∧
    RiskAssessmentComplex.calculate_savings_factor current_savings income = 0 ∧
    RiskAssessment.surplus_factor income monthly_surplus
      = clamp01 (log1p (max monthly_surplus 0) / log1p 1) ∧
    RiskAssessment.savings_factor income current_savings
      = clamp01 (log1p (current_savings / 1) / log1p 60) ∧
    log1p (1 : ℝ) ≠ 0 ∧ (1 : ℝ) ≠ 0 := by
  have hnot : ¬(0 < income) := not_lt.mpr h
  refine ⟨?_, ?_, ?_, ?_, ?_, one_ne_zero⟩
  · unfold RiskAssessmentComplex.calculate_surplus_factor
    rw [if_pos h]
  · unfold RiskAssessmentComplex.calculate_savings_factor
    rw [if_pos h]
  · unfold RiskAssessment.surplus_factor
    rw [if_neg hnot]
  · unfold RiskAssessment.savings_factor
    rw [if_neg hnot]
  · unfold log1p
    norm_num

/-- C2 witness: at income 0 the engine's factors are 0. -/
theorem spec_c2_witness :
    RiskAssessmentComplex.calculate_surplus_factor 5 0 = 0 ∧
    RiskAssessmentComplex.calculate_savings_factor 7 0 = 0 ∧
    log1p (1 : ℝ) ≠ 0 :=
  ⟨(spec_c2 0 5 7 le_rfl).1, (spec_c2 0 5 7 le_rfl).2.1,
   (spec_c2 0 5 7 le_rfl).2.2.2.2.1⟩

/-- C3 counterexample: the simple module's `analyze_user_risk_profile` has
no exception handler — a profile whose custom weights dict misses the
`"income"` key makes the scoring raise `KeyError`, which propagates to the
caller instead of any conservative fallback. -/
theorem spec_c3_counterexample :
    RiskAssessment.analyze_user_risk_profile
      ⟨30, 50000, 100000, 10000, [], none, some [("age", 0.25)]⟩
      = Except.error "KeyError: income" := rfl

/-- C3 (corrected): in the `RiskAssessmentEngine`
(`risk_assessment_complex.py`), any exception in the scoring body is caught:
the call then returns exactly the fixed conservative fallback (risk score
0.3, category Conservative, debt 70, equity 30) with the explicit error
flag, and a successful body is returned unchanged with the flag unset — the
engine's `calculate_risk_score` is total.  The simple `risk_assessment.py`
module has no such handler (see the counterexample). -/
theorem spec_c3 (e : RiskAssessmentComplex.RiskAssessmentEngine)
    (p : RiskAssessmentComplex.UserProfile) :
    (∀ msg, RiskAssessmentComplex.calcBody e.weights p = Except.error msg →
      e.calculate_risk_score p = RiskAssessmentComplex.default_conservative_profile) ∧
    RiskAssessmentComplex.default_conservative_profile.risk_score = 0.3 ∧
    RiskAssessmentComplex.default_conservative_profile.risk_category = "Conservative" ∧
    RiskAssessmentComplex.default_conservative_profile.debt_allocation = 70 ∧
    RiskAssessmentComplex.default_conservative_profile.equity_allocation = 30 ∧
    RiskAssessmentComplex.default_conservative_profile.error = true ∧
    (∀ r, RiskAssessmentComplex.calcBody e.weights p = Except.ok r →
      e.calculate_risk_score p = r ∧ r.error = false) := by
  refine ⟨?_, rfl, rfl, rfl, rfl, rfl, ?_⟩
  · intro msg h
    unfold RiskAssessmentComplex.RiskAssessmentEngine.calculate_risk_score
    rw [h]
  · intro r h
    refine ⟨?_, (calcBody_ok_shape h).1⟩
    unfold RiskAssessmentComplex.RiskAssessmentEngine.calculate_risk_score
    rw [h]

/-- C3 witness: an engine call on a profile whose custom weights dict is
empty (every lookup raises `KeyError`) returns the conservative fallback. -/
theorem spec_c3_witness :
    RiskAssessmentComplex.RiskAssessmentEngine.calculate_risk_score ⟨Settings.WEIGHTS⟩
        ⟨none, none, none, none, [], none, some []⟩
      = RiskAssessmentComplex.default_conservative_profile ∧
    RiskAssessmentComplex.default_conservative_profile.error = true :=
  ⟨(spec_c3 ⟨Settings.WEIGHTS⟩ ⟨none, none, none, none, [], none, some []⟩).1
      "KeyError: age_factor" rfl,
   (spec_c3 ⟨Settings.WEIGHTS⟩ ⟨none, none, none, none, [], none, some []⟩).2.2.2.2.2.1⟩

/-- C4 (confirmed): the engine's score-to-category mapping matches the band
table with first match winning: [0,0.2] ↦ Very Conservative 85/15,
(0.2,0.4] ↦ Conservative 70/30, (0.4,0.6] ↦ Moderate 55/45,
(0.6,0.8] ↦ Growth 35/65, (0.8,1] ↦ Aggressive 20/80; a score of exactly 0
maps to Very Conservative, any score matching no band (below 0 or above 1)
falls back to Moderate, and on [0,1] the simple module's category mapping
agrees. -/
theorem spec_c4 (s : ℝ) :
    (0 ≤ s → s ≤ 0.2 → RiskAssessmentComplex.get_risk_category_and_allocation s
      = ("Very Conservative", ⟨85, 15⟩)) ∧
    (0.2 < s → s ≤ 0.4 → RiskAssessmentComplex.get_risk_category_and_allocation s
      = ("Conservative", ⟨70, 30⟩)) ∧
    (0.4 < s → s ≤ 0.6 → RiskAssessmentComplex.get_risk_category_and_allocation s
      = ("Moderate", ⟨55, 45⟩)) ∧
    (0.6 < s → s ≤ 0.8 → RiskAssessmentComplex.get_risk_category_and_allocation s
      = ("Growth", ⟨35, 65⟩)) ∧
    (0.8 < s → s ≤ 1 → RiskAssessmentComplex.get_risk_category_and_allocation s
      = ("Aggressive", ⟨20, 80⟩)) ∧
    RiskAssessmentComplex.get_risk_category_and_allocation 0
      = ("Very Conservative", ⟨85, 15⟩) ∧
    (s < 0 ∨ 1 < s → RiskAssessmentComplex.get_risk_category_and_allocation s
      = ("Moderate", ⟨55, 45⟩)) ∧
    (0 ≤ s → s ≤ 1 → (RiskAssessment.get_risk_category_from_score s).1
      = (RiskAssessmentComplex.get_risk_category_and_allocation s).1) := by
  have hb1 : 0 ≤ s → s ≤ 0.2 → RiskAssessmentComplex.get_risk_category_and_allocation s
      = ("Very Conservative", ⟨85, 15⟩) := by
    intro h1 h2
    have k3 : (0.0 : ℝ) ≤ s := by linarith
    simp [RiskAssessmentComplex.get_risk_category_and_allocation, Settings.RISK_CATEGORIES,
      Settings.ALLOCATIONS, k3, h2]
  have hb2 : 0.2 < s → s ≤ 0.4 → RiskAssessmentComplex.get_risk_category_and_allocation s
      = ("Conservative", ⟨70, 30⟩) := by
    intro h1 h2
    have k1 : ¬(s ≤ 0.2) := by linarith
    have k3 : (0.0 : ℝ) ≤ s := by linarith
    have k4 : (0.2 : ℝ) ≤ s := by linarith
    simp [RiskAssessmentComplex.get_risk_category_and_allocation, Settings.RISK_CATEGORIES,
      Settings.ALLOCATIONS, k1, k3, k4, h2]
  have hb3 : 0.4 < s → s ≤ 0.6 → RiskAssessmentComplex.get_risk_category_and_allocation s
      = ("Moderate", ⟨55, 45⟩) := by
    intro h1 h2
    have k1 : ¬(s ≤ 0.2) := by linarith
    have k2 : ¬(s ≤ 0.4) := by linarith
    have k3 : (0.0 : ℝ) ≤ s := by linarith
    have k4 : (0.2 : ℝ) ≤ s := by linarith
    have k5 : (0.4 : ℝ) ≤ s := by linarith
    simp [RiskAssessmentComplex.get_risk_category_and_allocation, Settings.RISK_CATEGORIES,
      Settings.ALLOCATIONS, k1, k2, k3, k4, k5, h2]
  have hb4 : 0.6 < s → s ≤ 0.8 → RiskAssessmentComplex.get_risk_category_and_allocation s
      = ("Growth", ⟨35, 65⟩) := by
    intro h1 h2
    have k1 : ¬(s ≤ 0.2) := by linarith
    have k2 : ¬(s ≤ 0.4) := by linarith
    have k3 : ¬(s ≤ 0.6) := by linarith
    have k4 : (0.0 : ℝ) ≤ s := by linarith
    have k5 : (0.2 : ℝ) ≤ s := by linarith
    have k6 : (0.4 : ℝ) ≤ s := by linarith
    have k7 : (0.6 : ℝ) ≤ s := by linarith
    simp [RiskAssessmentComplex.get_risk_category_and_allocation, Settings.RISK_CATEGORIES,
      Settings.ALLOCATIONS, k1, k2, k3, k4, k5, k6, k7, h2]
  have hb5 : 0.8 < s → s ≤ 1 → RiskAssessmentComplex.get_risk_category_and_allocation s
      = ("Aggressive", ⟨20, 80⟩) := by
    intro h1 h2
    have k1 : ¬(s ≤ 0.2) := by linarith
    have k2 : ¬(s ≤ 0.4) := by linarith
    have k3 : ¬(s ≤ 0.6) := by linarith
    have k4 : ¬(s ≤ 0.8) := by linarith
    have k5 : (0.0 : ℝ) ≤ s := by linarith
    have k6 : (0.2 : ℝ) ≤ s := by linarith
    have k7 : (0.4 : ℝ) ≤ s := by linarith
    have k8 : (0.6 : ℝ) ≤ s := by linarith
    have k9 : (0.8 : ℝ) ≤ s := by linarith
    have k10 : s ≤ (1.0 : ℝ) := by linarith
    simp [RiskAssessmentComplex.get_risk_category_and_allocation, Settings.RISK_CATEGORIES,
      Settings.ALLOCATIONS, k1, k2, k3, k4, k5, k6, k7, k8, k9, k10]
  have hfb : s < 0 ∨ 1 < s → RiskAssessmentComplex.get_risk_category_and_allocation s
      = ("Moderate", ⟨55, 45⟩) := by
    rintro (h | h)
    · have k1 : ¬((0.0 : ℝ) ≤ s) := by linarith
      have k2 : ¬((0.2 : ℝ) ≤ s) := by linarith
      have k3 : ¬((0.4 : ℝ) ≤ s) := by linarith
      have k4 : ¬((0.6 : ℝ) ≤ s) := by linarith
      have k5 : ¬((0.8 : ℝ) ≤ s) := by linarith
      simp [RiskAssessmentComplex.get_risk_category_and_allocation, Settings.RISK_CATEGORIES,
        Settings.ALLOCATIONS, k1, k2, k3, k4, k5]
    · have k1 : ¬(s ≤ 0.2) := by linarith
      have k2 : ¬(s ≤ 0.4) := by linarith
      have k3 : ¬(s ≤ 0.6) := by linarith
      have k4 : ¬(s ≤ 0.8) := by linarith
      have k5 : ¬(s ≤ (1.0 : ℝ)) := by linarith
      simp [RiskAssessmentComplex.get_risk_category_and_allocation, Settings.RISK_CATEGORIES,
        Settings.ALLOCATIONS, k1, k2, k3, k4, k5]
  have hagree : 0 ≤ s → s ≤ 1 → (RiskAssessment.get_risk_category_from_score s).1
      = (RiskAssessmentComplex.get_risk_category_and_allocation s).1 := by
    intro h0 h1
    rcases le_or_lt s 0.2 with hA | hA
    · rw [hb1 h0 hA]
      unfold RiskAssessment.get_risk_category_from_score
      rw [if_pos hA]
    · rcases le_or_lt s 0.4 with hB | hB
      · rw [hb2 hA hB]
        unfold RiskAssessment.get_risk_category_from_score
        rw [if_neg (not_le.mpr hA), if_pos hB]
      · rcases le_or_lt s 0.6 with hC | hC
        · rw [hb3 hB hC]
          unfold RiskAssessment.get_risk_category_from_score
          rw [if_neg (by linarith), if_neg (not_le.mpr hB), if_pos hC]
        · rcases le_or_lt s 0.8 with hD | hD
          · rw [hb4 hC hD]
            unfold RiskAssessment.get_risk_category_from_score
            rw [if_neg (by linarith), if_neg (by linarith), if_neg (not_le.mpr hC), if_pos hD]
          · rw [hb5 hD h1]
            unfold RiskAssessment.get_risk_category_from_score
            rw [if_neg (by linarith), if_neg (by linarith), if_neg (by linarith),
              if_neg (not_le.mpr hD)]
  have hz : RiskAssessmentComplex.get_risk_category_and_allocation 0
      = ("Very Conservative", ⟨85, 15⟩) := by
    have k3 : (0.0 : ℝ) ≤ 0 := by norm_num
    have k4 : (0 : ℝ) ≤ (0.2 : ℝ) := by norm_num
    simp [RiskAssessmentComplex.get_risk_category_and_allocation, Settings.RISK_CATEGORIES,
      Settings.ALLOCATIONS, k3, k4]
  exact ⟨hb1, hb2, hb3, hb4, hb5, hz, hfb, hagree⟩

/-- C4 witness: 0.5 ↦ Moderate 55/45, 1.5 ↦ the Moderate fallback,
0 ↦ Very Conservative 85/15. -/
theorem spec_c4_witness :
    RiskAssessmentComplex.get_risk_category_and_allocation 0.5 = ("Moderate", ⟨55, 45⟩) ∧
    RiskAssessmentComplex.get_risk_category_and_allocation 1.5 = ("Moderate", ⟨55, 45⟩) ∧
    RiskAssessmentComplex.get_risk_category_and_allocation 0
      = ("Very Conservative", ⟨85, 15⟩) :=
  ⟨(spec_c4 0.5).2.2.1 (by norm_num) (by norm_num),
   (spec_c4 1.5).2.2.2.2.2.2.1 (Or.inr (by norm_num)),
   (spec_c4 0).2.2.2.2.2.1⟩

/-- C8 (confirmed): for every profile and weights mapping, a successfully
returned simple-module risk score is exactly the weighted sum of the six
factor scores clamped to `[0, 1]` — in particular it lies in `[0, 1]` — and
the engine's `_calculate_weighted_score` likewise returns the clamped
weighted sum, always in `[0, 1]`. -/
theorem spec_c8 (age income current_savings monthly_surplus : ℝ) (goals : List ℝ)
    (risk_tolerance : ℝ) (weights : Option (List (String × ℝ))) :
    (∀ r, RiskAssessment.calculate_risk_score age income current_savings monthly_surplus
        goals risk_tolerance weights = Except.ok r →
      (∃ w : RiskAssessment.SimpleWeights,
        r = clamp01 (w.age * RiskAssessment.age_factor age +
          w.income * RiskAssessment.income_factor income +
          w.timeline * RiskAssessment.timeline_factor goals +
          w.surplus * RiskAssessment.surplus_factor income monthly_surplus +
          w.savings * RiskAssessment.savings_factor income current_savings +
          w.tolerance * RiskAssessment.tolerance_factor risk_tolerance)) ∧
      0 ≤ r ∧ r ≤ 1) ∧
    (∀ (w : RiskAssessmentComplex.EngineWeights) (af incf tf sf savf tolf : ℝ),
      RiskAssessmentComplex.calculate_weighted_score w af incf tf sf savf tolf =
        clamp01 (w.age_factor * af + w.income_factor * incf + w.timeline_factor * tf +
          w.surplus_factor * sf + w.savings_factor * savf +
          w.risk_tolerance_factor * tolf) ∧
      0 ≤ RiskAssessmentComplex.calculate_weighted_score w af incf tf sf savf tolf ∧
      RiskAssessmentComplex.calculate_weighted_score w af incf tf sf savf tolf ≤ 1) := by
  constructor
  · intro r h
    unfold RiskAssessment.calculate_risk_score at h
    obtain ⟨w, -, rfl⟩ := except_map_ok h
    exact ⟨⟨w, rfl⟩, clamp01_nonneg _, clamp01_le_one _⟩
  · intro w af incf tf sf savf tolf
    exact ⟨rfl, clamp01_nonneg _, clamp01_le_one _⟩

/-- C8 witness: a concrete profile scored with the default weights yields a
score in `[0, 1]`. -/
theorem spec_c8_witness :
    ∃ r, RiskAssessment.calculate_risk_score 25 50000 0 0 [] 3 none = Except.ok r ∧
      0 ≤ r ∧ r ≤ 1 := by
  have h : RiskAssessment.calculate_risk_score 25 50000 0 0 [] 3 none
      = Except.ok (RiskAssessment.risk_score_core ⟨0.25, 0.20, 0.20, 0.15, 0.10, 0.10⟩
          25 50000 0 0 [] 3) := rfl
  obtain ⟨-, h0, h1⟩ := (spec_c8 25 50000 0 0 [] 3 none).1 _ h
  exact ⟨_, h, h0, h1⟩

/-- C9 (confirmed): engine construction succeeds exactly when the configured
weights sum to 1.0 within the 0.01 tolerance (so a sum anywhere in
0.999–1.001 is accepted, and sums such as 0.95 or 1.05 are rejected before
any request is served); a successfully built engine stores the weights
unchanged, and scoring itself never re-validates them (see C10). -/
theorem spec_c9 (w : List (String × ℝ)) :
    ((∃ e, RiskAssessmentComplex.RiskAssessmentEngine.init w = Except.ok e) ↔
      |(w.map Prod.snd).sum - 1.0| ≤ 0.01) ∧
    (∀ e, RiskAssessmentComplex.RiskAssessmentEngine.init w = Except.ok e →
      e.weights = w) ∧
    (0.999 ≤ (w.map Prod.snd).sum → (w.map Prod.snd).sum ≤ 1.001 →
      ∃ e, RiskAssessmentComplex.RiskAssessmentEngine.init w = Except.ok e) := by
  unfold RiskAssessmentComplex.RiskAssessmentEngine.init
    RiskAssessmentComplex.validate_config
  split_ifs with h
  · refine ⟨⟨?_, ?_⟩, ?_, ?_⟩
    · rintro ⟨e, he⟩
      simp [Except.map] at he
    · intro hle
      exact absurd hle (not_le.mpr h)
    · intro e he
      simp [Except.map] at he
    · intro h1 h2
      exact absurd (abs_le.mpr ⟨by linarith, by linarith⟩) (not_le.mpr h)
  · refine ⟨⟨fun _ => not_lt.mp h, fun _ => ⟨⟨w⟩, by simp [Except.map]⟩⟩, ?_,
      fun _ _ => ⟨⟨w⟩, by simp [Except.map]⟩⟩
    intro e he
    simp only [Except.map, Except.ok.injEq] at he
    rw [← he]

/-- C9 witness: the fixture summing to 0.95 is rejected at initialization,
the fixture summing to 1.001 is accepted. -/
theorem spec_c9_witness :
    (¬ ∃ e, RiskAssessmentComplex.RiskAssessmentEngine.init
        RiskAssessmentComplex.weightsSum095 = Except.ok e) ∧
    (∃ e, RiskAssessmentComplex.RiskAssessmentEngine.init
        RiskAssessmentComplex.weightsSum1001 = Except.ok e) := by
  have h95 : (RiskAssessmentComplex.weightsSum095.map Prod.snd).sum = 0.95 := by
    norm_num [RiskAssessmentComplex.weightsSum095]
  have h1001 : (RiskAssessmentComplex.weightsSum1001.map Prod.snd).sum = 1.001 := by
    norm_num [RiskAssessmentComplex.weightsSum1001]
  constructor
  · intro hex
    have h := (spec_c9 RiskAssessmentComplex.weightsSum095).1.mp hex
    rw [h95] at h
    rw [show |(0.95 : ℝ) - 1.0| = 0.05 by rw [abs_of_nonpos (by norm_num)]; norm_num] at h
    norm_num at h
  · refine (spec_c9 RiskAssessmentComplex.weightsSum1001).2.2 ?_ ?_
    · rw [h1001]
      norm_num
    · rw [h1001]

/-- C10 (confirmed): per-request custom weights bypass the weight-sum
validation entirely — for any profile supplying a complete custom weights
dict, with values summing to anything at all, the engine scores successfully
(no configuration error, no fallback: the error flag is unset) and the
returned risk score is still clamped to `[0, 1]`. -/
theorem spec_c10 (e : RiskAssessmentComplex.RiskAssessmentEngine)
    (p : RiskAssessmentComplex.UserProfile) (l : List (String × ℝ))
    (w : RiskAssessmentComplex.EngineWeights)
    (hcw : p.custom_weights = some l)
    (hlw : RiskAssessmentComplex.lookup_weights l = Except.ok w) :
    ∃ r, RiskAssessmentComplex.calcBody e.weights p = Except.ok r ∧
      e.calculate_risk_score p = r ∧ r.error = false ∧
      0 ≤ r.risk_score ∧ r.risk_score ≤ 1 := by
  obtain ⟨r, hr⟩ : ∃ r, RiskAssessmentComplex.calcBody e.weights p = Except.ok r := by
    unfold RiskAssessmentComplex.calcBody
    rw [hcw]
    simp only [Option.getD_some]
    rw [hlw]
    exact ⟨_, rfl⟩
  obtain ⟨herr, h0, h1⟩ := calcBody_ok_shape hr
  refine ⟨r, hr, ?_, herr, h0, h1⟩
  unfold RiskAssessmentComplex.RiskAssessmentEngine.calculate_risk_score
  rw [hr]

/-- C10 witness: custom weights summing to 0.5 score without any
configuration error, error flag unset, score in `[0, 1]`. -/
theorem spec_c10_witness :
    ∃ r, RiskAssessmentComplex.calcBody Settings.WEIGHTS
        ⟨some 25, some 50000, some 100000, some 10000, [60, 120], some 5,
          some RiskAssessmentComplex.weightsSum05⟩ = Except.ok r ∧
      RiskAssessmentComplex.RiskAssessmentEngine.calculate_risk_score ⟨Settings.WEIGHTS⟩
        ⟨some 25, some 50000, some 100000, some 10000, [60, 120], some 5,
          some RiskAssessmentComplex.weightsSum05⟩ = r ∧
      r.error = false ∧ 0 ≤ r.risk_score ∧ r.risk_score ≤ 1 :=
  spec_c10 ⟨Settings.WEIGHTS⟩
    ⟨some 25, some 50000, some 100000, some 10000, [60, 120], some 5,
      some RiskAssessmentComplex.weightsSum05⟩
    RiskAssessmentComplex.weightsSum05 ⟨0.1, 0.1, 0.1, 0.1, 0.05, 0.05⟩ rfl rfl

end InvestmentAdvisory
